import Mathlib

/-!
Shallow embedding of the `ChatGPT3TelegramBot` class from `telegram_bot.py`
(repository GreenWorld0928/telegram-chatgpt-bot).

Modelling choices:
* Every external `await`-able call (Telegram sends, file fetches, the audio
  library, the OpenAI helper) is a field of an `Env` record returning
  `Except String _`: `.error e` models a raised Python exception whose
  `str(e)` is `e`.
* Each handler is a pure function from `Env`, the inbound `Upd`ate and the
  local filesystem (a set of file names, as a `List String`) to a `HOut`:
  the ordered trace of attempted external calls, the final filesystem and
  the outcome (`.ok ()` models a normal return, `.error e` models an
  exception escaping the handler).
* Python `try/except/finally` is modelled by explicit control flow that is
  traced through the same exit paths as the source.
-/

namespace TgBot

/-- A Telegram attachment reference (`Voice` / `Audio` object): the fields
the source reads. -/
structure Attachment where
  file_id : String
  file_unique_id : String
deriving DecidableEq, Repr

/-- The fields of `update.message` that the source reads. -/
structure Msg where
  text : String
  voice : Option Attachment
  audio : Option Attachment
  message_id : Nat
  from_user_id : Int
deriving DecidableEq, Repr

/-- The fields of the Telegram `Update` that the source reads:
`update.message`, `update.effective_chat.id`, `update.effective_chat.type`. -/
structure Upd where
  message : Msg
  chat_id : Int
  chat_type : String
deriving DecidableEq, Repr

/-- One attempted external call, as recorded in a handler's trace.
`policyCheck` marks the single `is_allowed` evaluation a handler performs. -/
inductive Action where
  | policyCheck
  | queryMembership (userId : String)
  | sendMessage (chatId : Int) (replyTo : Option Nat) (text : String)
      (disablePreview : Bool) (markdown : Bool)
  | sendChatAction (chatId : Int) (kind : String)
  | sendPhoto (chatId : Int) (replyTo : Nat) (photo : String)
  | resetChatHistory (chatId : Int)
  | generateImage (prompt : String)
  | getChatResponse (chatId : Int) (query : String)
  | getFile (fileId : String)
  | downloadToDrive (path : String)
  | loadOgg (path : String)
  | exportMp3 (path : String)
  | transcribeAudio (path : String)
deriving DecidableEq, Repr

/-- The environment of external collaborators: configuration plus one field
per fallible external call the source makes. -/
structure Env where
  allowed_user_ids : String
  getMember : String → Except String String
  getFile : String → Except String String
  download : String → String → Except String Unit
  loadOgg : String → Except String Unit
  exportMp3 : String → Except String Unit
  transcribeAudio : String → Except String String
  generateImage : String → Except String String
  getChatResponse : Int → String → Except String String
  send : Action → Except String Unit

/-- Result of running one handler: the ordered trace of attempted external
calls, the final local filesystem, and normal return vs escaped exception. -/
structure HOut where
  trace : List Action
  fs : List String
  outcome : Except String Unit
deriving Repr

/-- The `self.disallowed_message` text set in the constructor. -/
def disallowed_message : String :=
  "Sorry, you are not allowed to use this bot. You can check out the source code at https://github.com/n3d1117/chatgpt-telegram-bot"

/-- The single send performed by `send_disallowed_message`. -/
def denialAction (upd : Upd) : Action :=
  Action.sendMessage upd.chat_id none disallowed_message true false

/-- Source `is_group_chat`: `update.effective_chat.type in ('group', 'supergroup')`. -/
def is_group_chat (upd : Upd) : Bool :=
  upd.chat_type = "group" || upd.chat_type = "supergroup"

/-- Python `str.split(',')`: split on every comma, keeping empty pieces
(`"a,b".split(',') == ['a','b']`, `"".split(',') == ['']`). Defined over the
character list so that it evaluates by kernel reduction. -/
def pySplitComma (s : String) : List String :=
  (s.data.splitOn ',').map List.asString

/-- One fuel-measured step list for Python `str.replace`: scan left to
right; at a position where the (nonempty) pattern matches, emit the
replacement and continue after the matched occurrence (non-overlapping);
otherwise keep the character. Fuel bounds the scan length so the recursion
is structural and evaluates by kernel reduction. -/
def pyReplaceAux (pat repl : List Char) : Nat → List Char → List Char
  | _, [] => []
  | 0, s => s
  | Nat.succ n, c :: rest =>
      if pat.isPrefixOf (c :: rest) then
        repl ++ pyReplaceAux pat repl n (List.drop pat.length (c :: rest))
      else
        c :: pyReplaceAux pat repl n rest

/-- Python `str.replace(pat, repl)` for a nonempty pattern: every
non-overlapping occurrence, scanned left to right, is replaced. -/
def pyReplace (s pat repl : String) : String :=
  (pyReplaceAux pat.data repl.data s.data.length s.data).asString

/-- Python `str.strip()`: drop leading and trailing whitespace. -/
def pyStrip (s : String) : String :=
  (((s.data.dropWhile Char.isWhitespace).reverse.dropWhile Char.isWhitespace).reverse).asString

/-- Source `is_user_in_group`: queries `get_member` (which may raise) and compares
the returned status against the three accepted statuses. There is no
exception handling in the source: a raised error propagates. -/
def is_user_in_group (env : Env) (userId : String) : Except String Bool :=
  match env.getMember userId with
  | Except.error e => Except.error e
  | Except.ok st =>
      Except.ok (decide (st = "administrator" || st = "member" || st = "creator"))

/-- The `for user in allowed_user_ids` loop of `is_allowed`: sequential scan
with short-circuit on the first member; a raised query error propagates.
Returns the trace of membership queries attempted and the result. -/
def scanMembers (env : Env) : List String → List Action × Except String Bool
  | [] => ([], Except.ok false)
  | u :: rest =>
      match is_user_in_group env u with
      | Except.error e => ([Action.queryMembership u], Except.error e)
      | Except.ok true => ([Action.queryMembership u], Except.ok true)
      | Except.ok false =>
          let r := scanMembers env rest
          (Action.queryMembership u :: r.1, r.2)

/-- Source `is_allowed`, with the trace of membership queries it attempts:
wildcard check, textual allow-list membership of `str(from_user.id)`,
then the group-membership scan, else deny. -/
def is_allowed_t (env : Env) (upd : Upd) : List Action × Except String Bool :=
  if env.allowed_user_ids = "*" then ([], Except.ok true)
  else
    let allowed_ids := pySplitComma env.allowed_user_ids
    if toString upd.message.from_user_id ∈ allowed_ids then ([], Except.ok true)
    else if is_group_chat upd then scanMembers env allowed_ids
    else ([], Except.ok false)

/-- The shared prologue of the four side-effecting handlers: evaluate
`is_allowed` once; on a raised error the handler escapes; on denial send the
disallowed message and return; on allow run the handler body. -/
def gate (env : Env) (upd : Upd) (fs : List String) (body : HOut) : HOut :=
  match is_allowed_t env upd with
  | (qt, Except.error e) => ⟨Action.policyCheck :: qt, fs, Except.error e⟩
  | (qt, Except.ok false) =>
      ⟨Action.policyCheck :: qt ++ [denialAction upd], fs, env.send (denialAction upd)⟩
  | (qt, Except.ok true) =>
      ⟨Action.policyCheck :: qt ++ body.trace, body.fs, body.outcome⟩

/-- Body of `reset` after the access gate: `reset_chat_history` (a plain
synchronous call on the helper) then the `Done!` acknowledgement. -/
def resetBody (env : Env) (upd : Upd) (fs : List String) : HOut :=
  ⟨[Action.resetChatHistory upd.chat_id,
    Action.sendMessage upd.chat_id none "Done!" false false], fs,
    env.send (Action.sendMessage upd.chat_id none "Done!" false false)⟩

/-- Handler for `/reset`. -/
def reset (env : Env) (upd : Upd) (fs : List String) : HOut :=
  gate env upd fs (resetBody env upd fs)

/-- Body of `image` after the access gate:
`image_query = update.message.text.replace('/image', '').strip()`; empty
query short-circuits with a corrective message; otherwise presence
indicator, then `generate_image` and `send_photo` inside `try`, with the
`except` branch sending the error text as a reply. -/
def imageBody (env : Env) (upd : Upd) (fs : List String) : HOut :=
  let chat := upd.chat_id
  let image_query := pyStrip (pyReplace upd.message.text "/image" "")
  if image_query = "" then
    let a := Action.sendMessage chat none "Please provide a prompt!" false false
    ⟨[a], fs, env.send a⟩
  else
    let ca := Action.sendChatAction chat "upload_photo"
    match env.send ca with
    | Except.error e => ⟨[ca], fs, Except.error e⟩
    | Except.ok _ =>
        match env.generateImage image_query with
        | Except.error e =>
            let fm := Action.sendMessage chat (some upd.message.message_id)
              ("Failed to generate image: " ++ e) false false
            ⟨[ca, Action.generateImage image_query, fm], fs, env.send fm⟩
        | Except.ok url =>
            let ph := Action.sendPhoto chat upd.message.message_id url
            match env.send ph with
            | Except.ok _ =>
                ⟨[ca, Action.generateImage image_query, ph], fs, Except.ok ()⟩
            | Except.error e =>
                let fm := Action.sendMessage chat (some upd.message.message_id)
                  ("Failed to generate image: " ++ e) false false
                ⟨[ca, Action.generateImage image_query, ph, fm], fs, env.send fm⟩

/-- Handler for `/image`. -/
def image (env : Env) (upd : Upd) (fs : List String) : HOut :=
  gate env upd fs (imageBody env upd fs)

/-- Body of `prompt` after the access gate: typing indicator, then
`get_chat_response` — NOT wrapped in `try/except` in the source, so a raised
backend error escapes the handler — then the markdown reply. -/
def promptBody (env : Env) (upd : Upd) (fs : List String) : HOut :=
  let chat := upd.chat_id
  let ca := Action.sendChatAction chat "typing"
  match env.send ca with
  | Except.error e => ⟨[ca], fs, Except.error e⟩
  | Except.ok _ =>
      let cc := Action.getChatResponse chat upd.message.text
      match env.getChatResponse chat upd.message.text with
      | Except.error e => ⟨[ca, cc], fs, Except.error e⟩
      | Except.ok resp =>
          let m := Action.sendMessage chat (some upd.message.message_id) resp false true
          ⟨[ca, cc, m], fs, env.send m⟩

/-- Handler for plain text messages. -/
def prompt (env : Env) (upd : Upd) (fs : List String) : HOut :=
  gate env upd fs (promptBody env upd fs)

/-- File creation on the local filesystem (a successful
`download_to_drive` or `AudioSegment.export`). -/
def fsCreate (fs : List String) (p : String) : List String :=
  if p ∈ fs then fs else p :: fs

/-- Removal guarded by existence: `if os.path.exists(p): os.remove(p)`. -/
def fsRemove (fs : List String) (p : String) : List String :=
  fs.filter (fun q => ¬ q = p)

/-- The `finally` block of `transcribe`: remove the mp3 working file if it
exists, then the ogg working file if it exists. -/
def cleanupFiles (fmp3 fogg : String) (fs : List String) : List String :=
  fsRemove (fsRemove fs fmp3) fogg

/-- The `try` block of `transcribe` for a voice note: `get_file`, download
to the `.ogg` path, decode with `AudioSegment.from_ogg`, export to the
`.mp3` path, transcribe, send the transcript (markdown, as a reply). Any
raised error aborts the block. Returns trace, filesystem, and the block's
outcome. -/
def voiceTryBody (env : Env) (chat : Int) (msgid : Nat) (fileId fogg fmp3 : String)
    (fs : List String) : List Action × List String × Except String Unit :=
  match env.getFile fileId with
  | Except.error e => ([Action.getFile fileId], fs, Except.error e)
  | Except.ok handle =>
      match env.download handle fogg with
      | Except.error e =>
          ([Action.getFile fileId, Action.downloadToDrive fogg], fs, Except.error e)
      | Except.ok _ =>
          let fs1 := fsCreate fs fogg
          match env.loadOgg fogg with
          | Except.error e =>
              ([Action.getFile fileId, Action.downloadToDrive fogg, Action.loadOgg fogg],
                fs1, Except.error e)
          | Except.ok _ =>
              match env.exportMp3 fmp3 with
              | Except.error e =>
                  ([Action.getFile fileId, Action.downloadToDrive fogg,
                    Action.loadOgg fogg, Action.exportMp3 fmp3], fs1, Except.error e)
              | Except.ok _ =>
                  let fs2 := fsCreate fs1 fmp3
                  match env.transcribeAudio fmp3 with
                  | Except.error e =>
                      ([Action.getFile fileId, Action.downloadToDrive fogg,
                        Action.loadOgg fogg, Action.exportMp3 fmp3,
                        Action.transcribeAudio fmp3], fs2, Except.error e)
                  | Except.ok txt =>
                      let m := Action.sendMessage chat (some msgid) txt false true
                      ([Action.getFile fileId, Action.downloadToDrive fogg,
                        Action.loadOgg fogg, Action.exportMp3 fmp3,
                        Action.transcribeAudio fmp3, m], fs2, env.send m)

/-- The `try` block of `transcribe` for a generic audio attachment:
`get_file`, download directly to the `.mp3` path (no transcode step),
transcribe, send the transcript. -/
def audioTryBody (env : Env) (chat : Int) (msgid : Nat) (fileId fmp3 : String)
    (fs : List String) : List Action × List String × Except String Unit :=
  match env.getFile fileId with
  | Except.error e => ([Action.getFile fileId], fs, Except.error e)
  | Except.ok handle =>
      match env.download handle fmp3 with
      | Except.error e =>
          ([Action.getFile fileId, Action.downloadToDrive fmp3], fs, Except.error e)
      | Except.ok _ =>
          let fs1 := fsCreate fs fmp3
          match env.transcribeAudio fmp3 with
          | Except.error e =>
              ([Action.getFile fileId, Action.downloadToDrive fmp3,
                Action.transcribeAudio fmp3], fs1, Except.error e)
          | Except.ok txt =>
              let m := Action.sendMessage chat (some msgid) txt false true
              ([Action.getFile fileId, Action.downloadToDrive fmp3,
                Action.transcribeAudio fmp3, m], fs1, env.send m)

/-- The `try/except/finally` of `transcribe`: on an exception from the
`try` block the `except` branch sends the error text as a reply (that send
may itself raise, which then escapes after `finally`); on a caught and
reported error the handler returns normally; the `finally` cleanup runs on
both paths. -/
def tryExceptFinally (env : Env) (chat : Int) (msgid : Nat) (fmp3 fogg : String)
    (body : List Action × List String × Except String Unit) : HOut :=
  match body with
  | (t, fs1, Except.ok _) => ⟨t, cleanupFiles fmp3 fogg fs1, Except.ok ()⟩
  | (t, fs1, Except.error e) =>
      let fm := Action.sendMessage chat (some msgid)
        ("Failed to transcribe text: " ++ e) false false
      ⟨t ++ [fm], cleanupFiles fmp3 fogg fs1, env.send fm⟩

/-- Body of `transcribe` after the access gate: unsupported-type check
(before any file work), typing indicator (before the `try` block, so a
raised send escapes with no file created), working-name derivation from the
attachment's `file_unique_id` (voice takes precedence), then the guarded
pipeline. -/
def transcribeBody (env : Env) (upd : Upd) (fs : List String) : HOut :=
  match upd.message.voice, upd.message.audio with
  | none, none =>
      let a := Action.sendMessage upd.chat_id (some upd.message.message_id)
        "Unsupported file type" false false
      ⟨[a], fs, env.send a⟩
  | some v, _ =>
      let ca := Action.sendChatAction upd.chat_id "typing"
      match env.send ca with
      | Except.error e => ⟨[ca], fs, Except.error e⟩
      | Except.ok _ =>
          let fogg := v.file_unique_id ++ ".ogg"
          let fmp3 := v.file_unique_id ++ ".mp3"
          let r := tryExceptFinally env upd.chat_id upd.message.message_id fmp3 fogg
            (voiceTryBody env upd.chat_id upd.message.message_id v.file_id fogg fmp3 fs)
          ⟨ca :: r.trace, r.fs, r.outcome⟩
  | none, some a =>
      let ca := Action.sendChatAction upd.chat_id "typing"
      match env.send ca with
      | Except.error e => ⟨[ca], fs, Except.error e⟩
      | Except.ok _ =>
          let fogg := a.file_unique_id ++ ".ogg"
          let fmp3 := a.file_unique_id ++ ".mp3"
          let r := tryExceptFinally env upd.chat_id upd.message.message_id fmp3 fogg
            (audioTryBody env upd.chat_id upd.message.message_id a.file_id fmp3 fs)
          ⟨ca :: r.trace, r.fs, r.outcome⟩

/-- Handler for voice/audio messages. -/
def transcribe (env : Env) (upd : Upd) (fs : List String) : HOut :=
  gate env upd fs (transcribeBody env upd fs)

/-- Spec-side description of the `/image` prompt extraction: the full
message text with every occurrence of the substring `/image` removed
(Python `str.replace`, all non-overlapping occurrences left to right) and
surrounding whitespace stripped. -/
def image_prompt_spec (text : String) : String :=
  pyStrip (pyReplace text "/image" "")

/-- Calls that reach the AI backend or fetch/process attachment data:
state-mutating or cost-incurring work. -/
def isBackendCall : Action → Bool
  | Action.resetChatHistory _ => true
  | Action.generateImage _ => true
  | Action.getChatResponse _ _ => true
  | Action.getFile _ => true
  | Action.downloadToDrive _ => true
  | Action.loadOgg _ => true
  | Action.exportMp3 _ => true
  | Action.transcribeAudio _ => true
  | _ => false

/-- Outbound text messages. -/
def isSendMessage : Action → Bool
  | Action.sendMessage _ _ _ _ _ => true
  | _ => false

/-- Presence ("typing" / "upload photo") indicators. -/
def isPresence : Action → Bool
  | Action.sendChatAction _ _ => true
  | _ => false

/-- Group-membership queries performed inside the access check. -/
def isMembershipQuery : Action → Bool
  | Action.queryMembership _ => true
  | _ => false

/-- A handler trace is policy-gated: it starts with the single policy
evaluation, followed by the membership queries that evaluation performs,
followed by a body that contains no further policy evaluation; and when the
policy denies, the body is exactly the one disallowed-message send. -/
def policyGated (env : Env) (upd : Upd) (t : List Action) : Prop :=
  ∃ body, t = Action.policyCheck :: (is_allowed_t env upd).1 ++ body ∧
    Action.policyCheck ∉ body ∧
    ((is_allowed_t env upd).2 = Except.ok false → body = [denialAction upd])

/-- Membership in `fsCreate`. -/
theorem mem_fsCreate (fs : List String) (p q : String) :
    q ∈ fsCreate fs p ↔ q ∈ fs ∨ q = p := by
  unfold fsCreate
  split
  · constructor
    · exact fun h => Or.inl h
    · rintro (h | h)
      · exact h
      · simpa [h]
  · simp [or_comm]

/-- Membership in `fsRemove`. -/
theorem mem_fsRemove (fs : List String) (p q : String) :
    q ∈ fsRemove fs p ↔ q ∈ fs ∧ ¬ q = p := by
  simp [fsRemove]

/-- Membership in the `finally` cleanup: a file survives exactly when it was
there and is neither working file. -/
theorem mem_cleanupFiles (fmp3 fogg : String) (fs : List String) (q : String) :
    q ∈ cleanupFiles fmp3 fogg fs ↔ q ∈ fs ∧ ¬ q = fmp3 ∧ ¬ q = fogg := by
  unfold cleanupFiles
  simp [mem_fsRemove, and_assoc, and_comm, and_left_comm]

/-- Concrete environment in which every external call succeeds. -/
def envOk : Env where
  allowed_user_ids := "*"
  getMember := fun _ => Except.ok "member"
  getFile := fun fid => Except.ok ("handle-" ++ fid)
  download := fun _ _ => Except.ok ()
  loadOgg := fun _ => Except.ok ()
  exportMp3 := fun _ => Except.ok ()
  transcribeAudio := fun _ => Except.ok "transcript text"
  generateImage := fun p => Except.ok ("img-" ++ p)
  getChatResponse := fun _ q => Except.ok ("echo " ++ q)
  send := fun _ => Except.ok ()

/-- Environment where the transcription backend raises. -/
def envTransFail : Env :=
  { envOk with transcribeAudio := fun _ => Except.error "whisper down" }

/-- Environment where the chat-completion backend raises. -/
def envChatFail : Env :=
  { envOk with getChatResponse := fun _ _ => Except.error "API connection error" }

/-- Environment for the membership-scan claims: allow-list `"1,2"`, the
query for id `"1"` raises, the query for id `"2"` reports a member. -/
def envScan : Env :=
  { envOk with
    allowed_user_ids := "1,2",
    getMember := fun u =>
      if u = "1" then Except.error "Bad Request: user not found"
      else Except.ok "member" }

/-- Environment for the denial claims: allow-list `"1,2"`, every membership
query reports a non-member status. -/
def envDeny : Env :=
  { envOk with
    allowed_user_ids := "1,2",
    getMember := fun _ => Except.ok "left" }

/-- A plain text message from user 42 in a direct chat. -/
def updText : Upd := ⟨⟨"hello", none, none, 3, 42⟩, 10, "private"⟩

/-- A voice note with unique id `abc123`. -/
def updVoice : Upd := ⟨⟨"", some ⟨"fidV", "abc123"⟩, none, 7, 42⟩, 10, "private"⟩

/-- A generic audio attachment with unique id `aud777`. -/
def updAudio : Upd := ⟨⟨"", none, some ⟨"fidA", "aud777"⟩, 8, 42⟩, 10, "private"⟩

/-- A message carrying both a voice note and an audio attachment. -/
def updBoth : Upd :=
  ⟨⟨"", some ⟨"fidV", "abc123"⟩, some ⟨"fidA", "aud777"⟩, 9, 42⟩, 10, "private"⟩

/-- An `/image` command whose body contains a second `/image` occurrence. -/
def updImage : Upd := ⟨⟨"/image a cat /image on a mat", none, none, 4, 42⟩, 10, "private"⟩

/-- An `/image` command with only whitespace after the command token. -/
def updImageEmpty : Upd := ⟨⟨"/image   ", none, none, 4, 42⟩, 10, "private"⟩

/-- A group-chat text message from user 99 (not on any allow-list here). -/
def updGroup99 : Upd := ⟨⟨"hi", none, none, 5, 99⟩, -100, "group"⟩

/-- A direct-chat text message from user 99. -/
def updDirect99 : Upd := ⟨⟨"hi", none, none, 6, 99⟩, 99, "private"⟩

/-- A direct-chat text message from allow-listed user 1. -/
def updDirect1 : Upd := ⟨⟨"hello", none, none, 11, 1⟩, 1, "private"⟩

/-- A group-chat text message from allow-listed user 1. -/
def updGroup1 : Upd := ⟨⟨"hello", none, none, 12, 1⟩, -100, "supergroup"⟩

/-- Every action in a membership scan's trace is a membership query. -/
theorem scanMembers_queries (env : Env) (l : List String) :
    ∀ a ∈ (scanMembers env l).1, isMembershipQuery a = true := by
  induction l with
  | nil => simp [scanMembers]
  | cons u rest ih =>
      intro a ha
      unfold scanMembers at ha
      cases h : is_user_in_group env u with
      | error e =>
          rw [h] at ha
          simp only [List.mem_singleton] at ha
          simp [ha, isMembershipQuery]
      | ok b =>
          cases b
          · rw [h] at ha
            simp only [List.mem_cons] at ha
            rcases ha with ha | ha
            · simp [ha, isMembershipQuery]
            · exact ih a ha
          · rw [h] at ha
            simp only [List.mem_singleton] at ha
            simp [ha, isMembershipQuery]

/-- Every action in the access check's trace is a membership query. -/
theorem is_allowed_t_queries (env : Env) (upd : Upd) :
    ∀ a ∈ (is_allowed_t env upd).1, isMembershipQuery a = true := by
  unfold is_allowed_t
  by_cases h1 : env.allowed_user_ids = "*"
  · simp [h1]
  · by_cases h2 : toString upd.message.from_user_id ∈ pySplitComma env.allowed_user_ids
    · simp [h1, h2]
    · by_cases h3 : is_group_chat upd = true
      · simpa [h1, h2, h3] using scanMembers_queries env (pySplitComma env.allowed_user_ids)
      · simp [h1, h2, h3]

/-- The policy evaluation itself never appears in its own query trace. -/
theorem policyCheck_not_mem_queries (env : Env) (upd : Upd) :
    Action.policyCheck ∉ (is_allowed_t env upd).1 := by
  intro h
  have := is_allowed_t_queries env upd Action.policyCheck h
  simp [isMembershipQuery] at this

/-- If every allow-listed id yields a clean non-member answer, the scan
queries each id in order and reports no member. -/
theorem scanMembers_all_false (env : Env) (l : List String)
    (h : ∀ u ∈ l, is_user_in_group env u = Except.ok false) :
    scanMembers env l = (l.map Action.queryMembership, Except.ok false) := by
  induction l with
  | nil => simp [scanMembers]
  | cons u rest ih =>
      have hu : is_user_in_group env u = Except.ok false := h u (by simp)
      have hr := ih (fun v hv => h v (by simp [hv]))
      simp [scanMembers, hu, hr]

/-- If the ids before `u` yield clean non-member answers and the query for
`u` raises, the scan stops at `u` and propagates the error. -/
theorem scanMembers_error (env : Env) (pre : List String) (u : String)
    (rest : List String) (e : String)
    (hpre : ∀ v ∈ pre, is_user_in_group env v = Except.ok false)
    (hu : is_user_in_group env u = Except.error e) :
    scanMembers env (pre ++ u :: rest) =
      (pre.map Action.queryMembership ++ [Action.queryMembership u], Except.error e) := by
  induction pre with
  | nil => simp [scanMembers, hu]
  | cons v vs ih =>
      have hv : is_user_in_group env v = Except.ok false := hpre v (by simp)
      have hr := ih (fun w hw => hpre w (by simp [hw]))
      simp [scanMembers, hv, hr]

/-- The access gate keeps the filesystem of the denial paths and otherwise
returns the body's filesystem. -/
theorem gate_fs (env : Env) (upd : Upd) (fs : List String) (body : HOut) :
    (gate env upd fs body).fs = fs ∨ (gate env upd fs body).fs = body.fs := by
  unfold gate
  rcases h : is_allowed_t env upd with ⟨qt, r⟩
  rcases r with e | b
  · simp
  · cases b <;> simp

/-- A gated handler's trace is policy-gated as soon as its body performs no
policy evaluation of its own. -/
theorem gate_policyGated (env : Env) (upd : Upd) (fs : List String) (body : HOut)
    (hb : Action.policyCheck ∉ body.trace) :
    policyGated env upd (gate env upd fs body).trace := by
  unfold gate policyGated
  rcases h : is_allowed_t env upd with ⟨qt, r⟩
  rcases r with e | b
  · refine ⟨[], by simp, by simp, ?_⟩
    intro hfalse
    simp at hfalse
  · cases b
    · refine ⟨[denialAction upd], by simp, ?_, fun _ => rfl⟩
      simp [denialAction]
    · refine ⟨body.trace, by simp, hb, ?_⟩
      intro hfalse
      simp at hfalse

/-- The reset body performs no policy evaluation. -/
theorem resetBody_no_policy (env : Env) (upd : Upd) (fs : List String) :
    Action.policyCheck ∉ (resetBody env upd fs).trace := by
  simp [resetBody]

/-- The image body performs no policy evaluation. -/
theorem imageBody_no_policy (env : Env) (upd : Upd) (fs : List String) :
    Action.policyCheck ∉ (imageBody env upd fs).trace := by
  simp only [imageBody]
  repeat' split
  all_goals simp

/-- The prompt body performs no policy evaluation. -/
theorem promptBody_no_policy (env : Env) (upd : Upd) (fs : List String) :
    Action.policyCheck ∉ (promptBody env upd fs).trace := by
  simp only [promptBody]
  repeat' split
  all_goals simp

/-- The voice `try` block performs no policy evaluation. -/
theorem voiceTryBody_no_policy (env : Env) (chat : Int) (msgid : Nat)
    (fileId fogg fmp3 : String) (fs : List String) :
    Action.policyCheck ∉ (voiceTryBody env chat msgid fileId fogg fmp3 fs).1 := by
  simp only [voiceTryBody]
  repeat' split
  all_goals simp

/-- The audio `try` block performs no policy evaluation. -/
theorem audioTryBody_no_policy (env : Env) (chat : Int) (msgid : Nat)
    (fileId fmp3 : String) (fs : List String) :
    Action.policyCheck ∉ (audioTryBody env chat msgid fileId fmp3 fs).1 := by
  simp only [audioTryBody]
  repeat' split
  all_goals simp

/-- The `try/except/finally` wrapper adds at most the failure-report send to the trace. -/
theorem tryExceptFinally_no_policy (env : Env) (chat : Int) (msgid : Nat)
    (fmp3 fogg : String) (body : List Action × List String × Except String Unit)
    (hb : Action.policyCheck ∉ body.1) :
    Action.policyCheck ∉ (tryExceptFinally env chat msgid fmp3 fogg body).trace := by
  rcases body with ⟨t, fs1, r⟩
  rcases r with e | u
  · simpa [tryExceptFinally] using hb
  · simpa [tryExceptFinally] using hb

/-- The transcribe body performs no policy evaluation. -/
theorem transcribeBody_no_policy (env : Env) (upd : Upd) (fs : List String) :
    Action.policyCheck ∉ (transcribeBody env upd fs).trace := by
  simp only [transcribeBody]
  repeat' split
  all_goals simp
  · exact tryExceptFinally_no_policy env upd.chat_id upd.message.message_id _ _ _
      (voiceTryBody_no_policy env upd.chat_id upd.message.message_id _ _ _ fs)
  · exact tryExceptFinally_no_policy env upd.chat_id upd.message.message_id _ _ _
      (audioTryBody_no_policy env upd.chat_id upd.message.message_id _ _ fs)

/-- Any file in the voice `try` block's final filesystem was either already
present or is one of the two working files. -/
theorem voiceTryBody_fs (env : Env) (chat : Int) (msgid : Nat)
    (fileId fogg fmp3 : String) (fs : List String) (q : String)
    (hq : q ∈ (voiceTryBody env chat msgid fileId fogg fmp3 fs).2.1) :
    q ∈ fs ∨ q = fogg ∨ q = fmp3 := by
  simp only [voiceTryBody] at hq
  repeat' split at hq
  all_goals simp only [mem_fsCreate] at hq
  all_goals tauto

/-- Any file in the audio `try` block's final filesystem was either already
present or is the mp3 working file. -/
theorem audioTryBody_fs (env : Env) (chat : Int) (msgid : Nat)
    (fileId fmp3 : String) (fs : List String) (q : String)
    (hq : q ∈ (audioTryBody env chat msgid fileId fmp3 fs).2.1) :
    q ∈ fs ∨ q = fmp3 := by
  simp only [audioTryBody] at hq
  repeat' split at hq
  all_goals simp only [mem_fsCreate] at hq
  all_goals tauto

/-- After `try/except/finally`, the filesystem is the `finally` cleanup of
the block's filesystem, on both the success and the exception path. -/
theorem tryExceptFinally_fs (env : Env) (chat : Int) (msgid : Nat)
    (fmp3 fogg : String) (body : List Action × List String × Except String Unit) :
    (tryExceptFinally env chat msgid fmp3 fogg body).fs = cleanupFiles fmp3 fogg body.2.1 := by
  rcases body with ⟨t, fs1, r⟩
  rcases r with e | u
  · simp [tryExceptFinally]
  · simp [tryExceptFinally]

/-- The transcribe body creates no net-new file: every exit path either
created nothing or removed the working files it created. -/
theorem transcribeBody_fs (env : Env) (upd : Upd) (fs : List String) (q : String)
    (hq : ¬ q ∈ fs) : ¬ q ∈ (transcribeBody env upd fs).fs := by
  simp only [transcribeBody]
  repeat' split
  all_goals try simpa using hq
  all_goals
    (intro hmem;
     rw [tryExceptFinally_fs] at hmem;
     rcases (mem_cleanupFiles _ _ _ q).1 hmem with ⟨hin, hne3, hneg⟩)
  · rcases voiceTryBody_fs env upd.chat_id upd.message.message_id _ _ _ fs q hin
      with h | h | h
    · exact hq h
    · exact hneg h
    · exact hne3 h
  · rcases audioTryBody_fs env upd.chat_id upd.message.message_id _ _ fs q hin
      with h | h
    · exact hq h
    · exact hne3 h

/-- An action satisfying `isMembershipQuery` is a membership query. -/
theorem isMembershipQuery_eq {a : Action} (h : isMembershipQuery a = true) :
    ∃ u, a = Action.queryMembership u := by
  cases a <;> simp [isMembershipQuery] at h ⊢

/-- Under a non-wildcard list, an unlisted sender, a group conversation and
clean non-member answers for every listed id, the access check queries every
id and denies. -/
theorem is_allowed_t_group_denied (env : Env) (upd : Upd)
    (hw : ¬ env.allowed_user_ids = "*")
    (hs : ¬ toString upd.message.from_user_id ∈ pySplitComma env.allowed_user_ids)
    (hg : is_group_chat upd = true)
    (hm : ∀ u ∈ pySplitComma env.allowed_user_ids, is_user_in_group env u = Except.ok false) :
    is_allowed_t env upd =
      ((pySplitComma env.allowed_user_ids).map Action.queryMembership, Except.ok false) := by
  simp [is_allowed_t, hw, hs, hg, scanMembers_all_false env _ hm]

/-- When the access check denies, a gated handler's trace is the policy
evaluation, its queries, and the single denial send. -/
theorem gate_denied_trace (env : Env) (upd : Upd) (fs : List String) (body : HOut)
    (qt : List Action) (hA : is_allowed_t env upd = (qt, Except.ok false)) :
    (gate env upd fs body).trace = Action.policyCheck :: qt ++ [denialAction upd] := by
  unfold gate
  rw [hA]

/-- A denial trace contains the denial send exactly once, no other outbound
text message, and no backend call. -/
theorem denial_trace_props (upd : Upd) (qt : List Action)
    (hqt : ∀ a ∈ qt, isMembershipQuery a = true) :
    (Action.policyCheck :: qt ++ [denialAction upd]).count (denialAction upd) = 1 ∧
    (∀ x ∈ Action.policyCheck :: qt ++ [denialAction upd],
      isSendMessage x = true → x = denialAction upd) ∧
    (∀ x ∈ Action.policyCheck :: qt ++ [denialAction upd], isBackendCall x = false) := by
  refine ⟨?_, ?_, ?_⟩
  · have h0 : qt.count (denialAction upd) = 0 := by
      rw [List.count_eq_zero]
      intro hmem
      rcases isMembershipQuery_eq (hqt _ hmem) with ⟨u, hu⟩
      simp [denialAction] at hu
    simp only [denialAction] at h0
    simp [List.count_cons, List.count_append, h0, denialAction]
  · intro x hx hsend
    rcases List.mem_cons.1 hx with rfl | hx
    · simp [isSendMessage] at hsend
    · rcases List.mem_append.1 hx with hx | hx
      · rcases isMembershipQuery_eq (hqt x hx) with ⟨u, rfl⟩
        simp [isSendMessage] at hsend
      · simpa using List.mem_singleton.1 hx
  · intro x hx
    rcases List.mem_cons.1 hx with rfl | hx
    · rfl
    · rcases List.mem_append.1 hx with hx | hx
      · rcases isMembershipQuery_eq (hqt x hx) with ⟨u, rfl⟩
        rfl
      · rw [List.mem_singleton.1 hx]
        rfl

/-- The access gate is insensitive to update fields it does not read. -/
theorem gate_congr (env : Env) (upd upd2 : Upd) (fs : List String) (b : HOut)
    (h1 : is_allowed_t env upd2 = is_allowed_t env upd)
    (h2 : denialAction upd2 = denialAction upd) :
    gate env upd2 fs b = gate env upd fs b := by
  unfold gate
  rw [h1, h2]

/-- C1: for every transcription request, every scratch file created during
the call is removed before the handler returns, on every exit path —
stated as: `transcribe` creates no net-new file, whatever the environment
does (success, denial, unsupported type, or any fetch / transcode /
transcription / send exception). -/
theorem claim_C1_scratch_files_cleaned (env : Env) (upd : Upd) (fs : List String)
    (q : String) (hq : ¬ q ∈ fs) : ¬ q ∈ (transcribe env upd fs).fs := by
  unfold transcribe
  rcases gate_fs env upd fs (transcribeBody env upd fs) with h | h
  · rw [h]
    exact hq
  · rw [h]
    exact transcribeBody_fs env upd fs q hq

/-- Witness for C1: a voice note with unique id `abc123` whose transcription
backend raises leaves neither `abc123.ogg` nor `abc123.mp3` behind. -/
theorem claim_C1_scratch_files_cleaned_witness :
    ¬ "abc123.ogg" ∈ (transcribe envTransFail updVoice []).fs ∧
    ¬ "abc123.mp3" ∈ (transcribe envTransFail updVoice []).fs :=
  ⟨claim_C1_scratch_files_cleaned envTransFail updVoice [] "abc123.ogg" (by simp),
   claim_C1_scratch_files_cleaned envTransFail updVoice [] "abc123.mp3" (by simp)⟩

/-- C2: every side-effecting handler (reset, image, transcribe, prompt)
evaluates the access policy exactly once, as its first step, before any
backend or other cost-incurring call; the policy evaluation performs only
membership queries; and on denial the handler body is exactly the single
disallowed-message send — no backend call, presence indicator or other
message runs. -/
theorem claim_C2_policy_gate (env : Env) (upd : Upd) (fs : List String) :
    (∀ a ∈ (is_allowed_t env upd).1, isMembershipQuery a = true) ∧
    policyGated env upd (reset env upd fs).trace ∧
    policyGated env upd (image env upd fs).trace ∧
    policyGated env upd (transcribe env upd fs).trace ∧
    policyGated env upd (prompt env upd fs).trace :=
  ⟨is_allowed_t_queries env upd,
   gate_policyGated env upd fs _ (resetBody_no_policy env upd fs),
   gate_policyGated env upd fs _ (imageBody_no_policy env upd fs),
   gate_policyGated env upd fs _ (transcribeBody_no_policy env upd fs),
   gate_policyGated env upd fs _ (promptBody_no_policy env upd fs)⟩

/-- Witness for C2 at a concrete denied group event. -/
theorem claim_C2_policy_gate_witness :
    (∀ a ∈ (is_allowed_t envDeny updGroup99).1, isMembershipQuery a = true) ∧
    policyGated envDeny updGroup99 (reset envDeny updGroup99 []).trace ∧
    policyGated envDeny updGroup99 (image envDeny updGroup99 []).trace ∧
    policyGated envDeny updGroup99 (transcribe envDeny updGroup99 []).trace ∧
    policyGated envDeny updGroup99 (prompt envDeny updGroup99 []).trace :=
  claim_C2_policy_gate envDeny updGroup99 []

/-- Counterexample to C3 as stated: in `envScan` the query for the first
allow-listed id `"1"` raises while id `"2"` would answer "member". The
claim says the allow check does not raise and proceeds to the next id
(which would yield `ok true` here); the code instead stops at `"1"` and
propagates the raised error. -/
theorem claim_C3_counterexample :
    is_user_in_group envScan "2" = Except.ok true ∧
    is_allowed_t envScan updGroup99 =
      ([Action.queryMembership "1"], Except.error "Bad Request: user not found") :=
  ⟨rfl, rfl⟩

/-- C3 as amended: a failure of an individual membership query propagates
as a raised error out of the allow check, aborting the scan before any
later id is consulted; it is neither treated as "not a member" nor
converted to a denial. -/
theorem claim_C3_query_failure_propagates (env : Env) (upd : Upd)
    (pre : List String) (u : String) (rest : List String) (e : String)
    (hw : ¬ env.allowed_user_ids = "*")
    (hs : ¬ toString upd.message.from_user_id ∈ pySplitComma env.allowed_user_ids)
    (hg : is_group_chat upd = true)
    (hsplit : pySplitComma env.allowed_user_ids = pre ++ u :: rest)
    (hpre : ∀ v ∈ pre, is_user_in_group env v = Except.ok false)
    (hu : is_user_in_group env u = Except.error e) :
    is_allowed_t env upd =
      (pre.map Action.queryMembership ++ [Action.queryMembership u], Except.error e) := by
  have hs2 := hs
  rw [hsplit] at hs2
  simp only [List.mem_append, List.mem_cons, not_or] at hs2
  simp [is_allowed_t, hw, hg, hsplit, hs2,
    scanMembers_error env pre u rest e hpre hu]

/-- Witness for the amended C3 at `envScan`. -/
theorem claim_C3_query_failure_propagates_witness :
    is_allowed_t envScan updGroup99 =
      (([] : List String).map Action.queryMembership ++ [Action.queryMembership "1"],
        Except.error "Bad Request: user not found") :=
  claim_C3_query_failure_propagates envScan updGroup99 [] "1" ["2"]
    "Bad Request: user not found" (by decide) (by decide) (by decide) (by decide)
    (by simp) rfl

/-- Counterexample to C4 as stated: with a chat backend that raises, the
`prompt` handler lets the error escape and sends nothing — the error text
is not delivered as a reply. -/
theorem claim_C4_counterexample :
    (prompt envChatFail updText []).outcome = Except.error "API connection error" ∧
    ∀ x ∈ (prompt envChatFail updText []).trace, isSendMessage x = false :=
  ⟨rfl, by decide⟩

/-- C4 as amended: for a chat-prompt event whose backend chat-completion
call raises, the error escapes the handler uncaught (the handler's outcome
is that error) and no message of any kind is sent to the user. -/
theorem claim_C4_chat_error_escapes (env : Env) (upd : Upd) (fs : List String) (e : String)
    (hallow : (is_allowed_t env upd).2 = Except.ok true)
    (hca : env.send (Action.sendChatAction upd.chat_id "typing") = Except.ok ())
    (hcc : env.getChatResponse upd.chat_id upd.message.text = Except.error e) :
    (prompt env upd fs).outcome = Except.error e ∧
    ∀ x ∈ (prompt env upd fs).trace, isSendMessage x = false := by
  have hquery := is_allowed_t_queries env upd
  rcases hA : is_allowed_t env upd with ⟨qt, r⟩
  rw [hA] at hallow hquery
  simp only at hallow
  subst hallow
  refine ⟨?_, ?_⟩
  · simp only [prompt, gate, hA, promptBody, hca, hcc]
  simp only [prompt, gate, hA, promptBody, hca, hcc]
  intro x hx
  rcases List.mem_cons.1 hx with rfl | hx
  · rfl
  · rcases List.mem_append.1 hx with hx | hx
    · rcases isMembershipQuery_eq (hquery x hx) with ⟨u, rfl⟩
      rfl
    · rcases List.mem_cons.1 hx with rfl | hx
      · rfl
      · rw [List.mem_singleton.1 hx]
        rfl

/-- Witness for the amended C4 at `envChatFail`. -/
theorem claim_C4_chat_error_escapes_witness :
    (prompt envChatFail updText []).outcome = Except.error "API connection error" ∧
    ∀ x ∈ (prompt envChatFail updText []).trace, isSendMessage x = false :=
  claim_C4_chat_error_escapes envChatFail updText [] "API connection error"
    rfl rfl rfl

/-- C5: for a group event whose sender is not on the non-wildcard
allow-list and where no listed id is a member, the access check denies, and
every handler sends the fixed disallowed message (link previews disabled)
exactly once, sends no other message, and makes no backend call. -/
theorem claim_C5_group_denial (env : Env) (upd : Upd) (fs : List String)
    (hw : ¬ env.allowed_user_ids = "*")
    (hs : ¬ toString upd.message.from_user_id ∈ pySplitComma env.allowed_user_ids)
    (hg : is_group_chat upd = true)
    (hm : ∀ u ∈ pySplitComma env.allowed_user_ids, is_user_in_group env u = Except.ok false) :
    (is_allowed_t env upd).2 = Except.ok false ∧
    denialAction upd = Action.sendMessage upd.chat_id none disallowed_message true false ∧
    ∀ hout ∈ [reset env upd fs, image env upd fs, transcribe env upd fs, prompt env upd fs],
      hout.trace.count (denialAction upd) = 1 ∧
      (∀ x ∈ hout.trace, isSendMessage x = true → x = denialAction upd) ∧
      (∀ x ∈ hout.trace, isBackendCall x = false) := by
  have hA := is_allowed_t_group_denied env upd hw hs hg hm
  have hqt : ∀ a ∈ (pySplitComma env.allowed_user_ids).map Action.queryMembership,
      isMembershipQuery a = true := by
    intro a ha
    rcases List.mem_map.1 ha with ⟨u, _, rfl⟩
    rfl
  refine ⟨?_, rfl, ?_⟩
  · rw [hA]
  intro hout hmem
  have props := denial_trace_props upd _ hqt
  simp only [List.mem_cons, List.not_mem_nil, or_false] at hmem
  rcases hmem with rfl | rfl | rfl | rfl
  · unfold reset
    rw [gate_denied_trace env upd fs (resetBody env upd fs) _ hA]
    exact props
  · unfold image
    rw [gate_denied_trace env upd fs (imageBody env upd fs) _ hA]
    exact props
  · unfold transcribe
    rw [gate_denied_trace env upd fs (transcribeBody env upd fs) _ hA]
    exact props
  · unfold prompt
    rw [gate_denied_trace env upd fs (promptBody env upd fs) _ hA]
    exact props

/-- Witness for C5 at `envDeny` (allow-list `"1,2"`, both report status
`left`) for a group message from user 99. -/
theorem claim_C5_group_denial_witness :
    (is_allowed_t envDeny updGroup99).2 = Except.ok false ∧
    denialAction updGroup99 =
      Action.sendMessage updGroup99.chat_id none disallowed_message true false ∧
    ∀ hout ∈ [reset envDeny updGroup99 [], image envDeny updGroup99 [],
        transcribe envDeny updGroup99 [], prompt envDeny updGroup99 []],
      hout.trace.count (denialAction updGroup99) = 1 ∧
      (∀ x ∈ hout.trace, isSendMessage x = true → x = denialAction updGroup99) ∧
      (∀ x ∈ hout.trace, isBackendCall x = false) :=
  claim_C5_group_denial envDeny updGroup99 [] (by decide) (by decide) (by decide)
    (fun u _ => rfl)

/-- C6: an event whose sender id is textually present in the configured
non-wildcard comma-separated allow-list is allowed, with no membership
query, whatever the conversation kind (`upd.chat_type` is unconstrained). -/
theorem claim_C6_allowlist_member_allowed (env : Env) (upd : Upd)
    (hw : ¬ env.allowed_user_ids = "*")
    (hs : toString upd.message.from_user_id ∈ pySplitComma env.allowed_user_ids) :
    is_allowed_t env upd = ([], Except.ok true) := by
  simp [is_allowed_t, hw, hs]

/-- Witness for C6: sender 1 on allow-list `"1,2"`, in a direct and in a
group conversation. -/
theorem claim_C6_allowlist_member_allowed_witness :
    is_allowed_t envDeny updDirect1 = ([], Except.ok true) ∧
    is_allowed_t envDeny updGroup1 = ([], Except.ok true) :=
  ⟨claim_C6_allowlist_member_allowed envDeny updDirect1 (by decide) (by decide),
   claim_C6_allowlist_member_allowed envDeny updGroup1 (by decide) (by decide)⟩

/-- C7: for an authorized `/image` event whose prompt is empty or
whitespace-only after removing the command token, the handler sends only
the request-for-prompt reply (after the policy queries), stops, leaves the
filesystem untouched, and makes no backend call and emits no presence
indicator. -/
theorem claim_C7_empty_image_prompt (env : Env) (upd : Upd) (fs : List String)
    (hallow : (is_allowed_t env upd).2 = Except.ok true)
    (he : pyStrip (pyReplace upd.message.text "/image" "") = "") :
    (image env upd fs).trace =
      Action.policyCheck :: (is_allowed_t env upd).1 ++
        [Action.sendMessage upd.chat_id none "Please provide a prompt!" false false] ∧
    (image env upd fs).fs = fs ∧
    (image env upd fs).outcome =
      env.send (Action.sendMessage upd.chat_id none "Please provide a prompt!" false false) ∧
    ∀ x ∈ (image env upd fs).trace, isBackendCall x = false ∧ isPresence x = false := by
  have hquery := is_allowed_t_queries env upd
  rcases hA : is_allowed_t env upd with ⟨qt, r⟩
  rw [hA] at hallow hquery
  simp only at hallow
  subst hallow
  have htr : (image env upd fs).trace =
      Action.policyCheck :: qt ++
        [Action.sendMessage upd.chat_id none "Please provide a prompt!" false false] := by
    simp [image, gate, hA, imageBody, he]
  refine ⟨htr, ?_, ?_, ?_⟩
  · simp [image, gate, hA, imageBody, he]
  · simp [image, gate, hA, imageBody, he]
  · rw [htr]
    intro x hx
    rcases List.mem_cons.1 hx with rfl | hx
    · exact ⟨rfl, rfl⟩
    rcases List.mem_append.1 hx with hx | hx
    · rcases isMembershipQuery_eq (hquery x hx) with ⟨u, rfl⟩
      exact ⟨rfl, rfl⟩
    · rw [List.mem_singleton.1 hx]
      exact ⟨rfl, rfl⟩

/-- Witness for C7: `/image` followed only by spaces, wide-open policy. -/
theorem claim_C7_empty_image_prompt_witness :
    (image envOk updImageEmpty []).trace =
      Action.policyCheck :: (is_allowed_t envOk updImageEmpty).1 ++
        [Action.sendMessage updImageEmpty.chat_id none "Please provide a prompt!" false false] ∧
    (image envOk updImageEmpty []).fs = ([] : List String) ∧
    (image envOk updImageEmpty []).outcome =
      envOk.send
        (Action.sendMessage updImageEmpty.chat_id none "Please provide a prompt!" false false) ∧
    ∀ x ∈ (image envOk updImageEmpty []).trace,
      isBackendCall x = false ∧ isPresence x = false :=
  claim_C7_empty_image_prompt envOk updImageEmpty [] rfl rfl

/-- C8: on the success path of an authorized transcription, a voice note
with unique id `u` is fetched to `u.ogg`, decoded, exported to `u.mp3`, and
the transcriber runs on `u.mp3`; a generic audio attachment is fetched
directly to `u.mp3` — no decode or export step — and the transcriber runs
on that path. -/
theorem claim_C8_pipeline_paths (env : Env) (upd : Upd) (fs : List String)
    (hallow : (is_allowed_t env upd).2 = Except.ok true) :
    (∀ v handle txt, upd.message.voice = some v →
      env.send (Action.sendChatAction upd.chat_id "typing") = Except.ok () →
      env.getFile v.file_id = Except.ok handle →
      env.download handle (v.file_unique_id ++ ".ogg") = Except.ok () →
      env.loadOgg (v.file_unique_id ++ ".ogg") = Except.ok () →
      env.exportMp3 (v.file_unique_id ++ ".mp3") = Except.ok () →
      env.transcribeAudio (v.file_unique_id ++ ".mp3") = Except.ok txt →
      env.send (Action.sendMessage upd.chat_id (some upd.message.message_id) txt false true) =
        Except.ok () →
      (transcribe env upd fs).trace =
        Action.policyCheck :: (is_allowed_t env upd).1 ++
          [Action.sendChatAction upd.chat_id "typing",
           Action.getFile v.file_id,
           Action.downloadToDrive (v.file_unique_id ++ ".ogg"),
           Action.loadOgg (v.file_unique_id ++ ".ogg"),
           Action.exportMp3 (v.file_unique_id ++ ".mp3"),
           Action.transcribeAudio (v.file_unique_id ++ ".mp3"),
           Action.sendMessage upd.chat_id (some upd.message.message_id) txt false true]) ∧
    (∀ a handle txt, upd.message.voice = none → upd.message.audio = some a →
      env.send (Action.sendChatAction upd.chat_id "typing") = Except.ok () →
      env.getFile a.file_id = Except.ok handle →
      env.download handle (a.file_unique_id ++ ".mp3") = Except.ok () →
      env.transcribeAudio (a.file_unique_id ++ ".mp3") = Except.ok txt →
      env.send (Action.sendMessage upd.chat_id (some upd.message.message_id) txt false true) =
        Except.ok () →
      (transcribe env upd fs).trace =
        Action.policyCheck :: (is_allowed_t env upd).1 ++
          [Action.sendChatAction upd.chat_id "typing",
           Action.getFile a.file_id,
           Action.downloadToDrive (a.file_unique_id ++ ".mp3"),
           Action.transcribeAudio (a.file_unique_id ++ ".mp3"),
           Action.sendMessage upd.chat_id (some upd.message.message_id) txt false true]) := by
  rcases hA : is_allowed_t env upd with ⟨qt, r⟩
  rw [hA] at hallow
  simp only at hallow
  subst hallow
  constructor
  · intro v handle txt hv h1 h2 h3 h4 h5 h6 h7
    simp [transcribe, gate, hA, transcribeBody, hv, h1, voiceTryBody, h2, h3, h4, h5, h6,
      h7, tryExceptFinally]
  · intro a handle txt hv ha h1 h2 h3 h4 h5
    simp [transcribe, gate, hA, transcribeBody, hv, ha, h1, audioTryBody, h2, h3, h4, h5,
      tryExceptFinally]

/-- Witness for C8: the all-success environment on a voice note
`abc123` and an audio attachment `aud777`. -/
theorem claim_C8_pipeline_paths_witness :
    (transcribe envOk updVoice []).trace =
      Action.policyCheck :: (is_allowed_t envOk updVoice).1 ++
        [Action.sendChatAction updVoice.chat_id "typing",
         Action.getFile "fidV",
         Action.downloadToDrive ("abc123" ++ ".ogg"),
         Action.loadOgg ("abc123" ++ ".ogg"),
         Action.exportMp3 ("abc123" ++ ".mp3"),
         Action.transcribeAudio ("abc123" ++ ".mp3"),
         Action.sendMessage updVoice.chat_id (some updVoice.message.message_id)
           "transcript text" false true] ∧
    (transcribe envOk updAudio []).trace =
      Action.policyCheck :: (is_allowed_t envOk updAudio).1 ++
        [Action.sendChatAction updAudio.chat_id "typing",
         Action.getFile "fidA",
         Action.downloadToDrive ("aud777" ++ ".mp3"),
         Action.transcribeAudio ("aud777" ++ ".mp3"),
         Action.sendMessage updAudio.chat_id (some updAudio.message.message_id)
           "transcript text" false true] :=
  ⟨(claim_C8_pipeline_paths envOk updVoice [] rfl).1 ⟨"fidV", "abc123"⟩
      ("handle-" ++ "fidV") "transcript text" rfl rfl rfl rfl rfl rfl rfl rfl,
   (claim_C8_pipeline_paths envOk updAudio [] rfl).2 ⟨"fidA", "aud777"⟩
      ("handle-" ++ "fidA") "transcript text" rfl rfl rfl rfl rfl rfl rfl⟩

/-- C9: when an event carries both a voice note and an audio attachment,
the voice note takes precedence and the audio attachment is ignored
entirely: the handler behaves exactly as it would on the same event with
the audio attachment removed (so the working name comes from the voice
note's unique id and the voice note is the one fetched and transcoded). -/
theorem claim_C9_voice_precedence (env : Env) (upd : Upd) (fs : List String)
    (v a : Attachment) (hv : upd.message.voice = some v) (ha : upd.message.audio = some a) :
    transcribe env upd fs =
      transcribe env
        ⟨⟨upd.message.text, upd.message.voice, none, upd.message.message_id,
          upd.message.from_user_id⟩, upd.chat_id, upd.chat_type⟩ fs := by
  unfold transcribe
  rw [gate_congr env upd
    ⟨⟨upd.message.text, upd.message.voice, none, upd.message.message_id,
      upd.message.from_user_id⟩, upd.chat_id, upd.chat_type⟩ fs _ rfl rfl]
  have hb : transcribeBody env
      ⟨⟨upd.message.text, upd.message.voice, none, upd.message.message_id,
        upd.message.from_user_id⟩, upd.chat_id, upd.chat_type⟩ fs =
      transcribeBody env upd fs := by
    simp only [transcribeBody, hv]
  rw [hb]

/-- Witness for C9 on a message carrying `abc123` (voice) and `aud777`
(audio). -/
theorem claim_C9_voice_precedence_witness :
    transcribe envOk updBoth [] =
      transcribe envOk
        ⟨⟨updBoth.message.text, updBoth.message.voice, none, updBoth.message.message_id,
          updBoth.message.from_user_id⟩, updBoth.chat_id, updBoth.chat_type⟩ [] :=
  claim_C9_voice_precedence envOk updBoth [] ⟨"fidV", "abc123"⟩ ⟨"fidA", "aud777"⟩ rfl rfl

/-- C10: for an authorized `/image` event, the prompt handed to the
image-generation backend is the full message text with every occurrence of
the substring `/image` removed and surrounding whitespace stripped — an
occurrence inside the prompt body is deleted too, not only the leading
command token. -/
theorem claim_C10_image_prompt_transform (env : Env) (upd : Upd) (fs : List String)
    (hallow : (is_allowed_t env upd).2 = Except.ok true)
    (hne : ¬ image_prompt_spec upd.message.text = "")
    (hca : env.send (Action.sendChatAction upd.chat_id "upload_photo") = Except.ok ()) :
    Action.generateImage (image_prompt_spec upd.message.text) ∈ (image env upd fs).trace := by
  rcases hA : is_allowed_t env upd with ⟨qt, r⟩
  rw [hA] at hallow
  simp only at hallow
  subst hallow
  simp only [image, gate, hA, imageBody]
  rw [if_neg (by simpa [image_prompt_spec] using hne)]
  rw [hca]
  simp only [image_prompt_spec]
  split
  · simp
  · split
    · simp
    · simp

/-- Witness for C10: the text `"/image a cat /image on a mat"` yields the
backend prompt `"a cat  on a mat"` — the interior `/image` is deleted
too. -/
theorem claim_C10_image_prompt_transform_witness :
    image_prompt_spec "/image a cat /image on a mat" = "a cat  on a mat" ∧
    Action.generateImage (image_prompt_spec updImage.message.text) ∈
      (image envOk updImage []).trace :=
  ⟨by decide, claim_C10_image_prompt_transform envOk updImage [] rfl (by decide) rfl⟩

end TgBot
